import Mathlib

/-!
Shallow embedding of `GoogleMapsConverter`
(src/MarinaMaster-Multi-Location-Microsoft-DynamicImageSize/attached_assets/
google_maps_converter_python_1751340999298.py) over real arithmetic.

Python floats are modelled as real numbers; Python `int` parameters that are
immediately used in float arithmetic (image sizes, pixel coordinates) are kept
as `ℤ` where stored and coerced to `ℝ` where the code divides them.

Partiality is modelled with `Option`:
  * `math.log x` raises `ValueError` exactly when `x ≤ 0`, so every call site of
    `_lat_lng_to_mercator` is guarded by `0 < tan ((90 + lat) * π / 360)`;
  * float division by zero raises `ZeroDivisionError`, so `lat_lng_to_pixel`
    (the only method that divides by `meters_per_pixel`) is guarded by
    `meters_per_pixel ≠ 0`.
All other operations of the class are total and are modelled as plain
functions.
-/

namespace GoogleMapsConverter

open scoped Classical

/-- Mercator longitude/latitude pair returned by `pixel_to_lat_lng`
(the Python dict with keys 'lat'/'lng'). -/
structure GeoPoint where
  lat : ℝ
  lng : ℝ

/-- Pixel coordinate pair returned by `lat_lng_to_pixel`
(the Python dict with keys 'x'/'y'). -/
structure PixelPoint where
  x : ℝ
  y : ℝ

/-- Web Mercator coordinate pair (the Python dict with keys 'x'/'y'
returned by `_lat_lng_to_mercator`). -/
structure MercatorPoint where
  x : ℝ
  y : ℝ

/-- EARTH_RADIUS constant: Earth's radius in meters. -/
def EARTH_RADIUS : ℝ := 6378137

/-- ORIGIN_SHIFT constant: `2 * math.pi * EARTH_RADIUS / 2.0`. -/
noncomputable def ORIGIN_SHIFT : ℝ := 2 * Real.pi * EARTH_RADIUS / 2

/-- Embedding of `_lat_lng_to_mercator` (the arithmetic, unconditionally):
`x = lng * ORIGIN_SHIFT / 180.0`;
`y = log(tan((90 + lat) * pi / 360.0)) / (pi / 180.0)`, then
`y = y * ORIGIN_SHIFT / 180.0`. -/
noncomputable def latLngToMercator (lat lng : ℝ) : MercatorPoint where
  x := lng * ORIGIN_SHIFT / 180
  y := Real.log (Real.tan ((90 + lat) * Real.pi / 360)) / (Real.pi / 180) * ORIGIN_SHIFT / 180

/-- Domain of `_lat_lng_to_mercator` in exact real arithmetic: `math.log`
raises `ValueError` unless its argument is positive. -/
def mercatorDefined (lat : ℝ) : Prop :=
  0 < Real.tan ((90 + lat) * Real.pi / 360)

/-- Embedding of `_mercator_to_lat_lng`:
`lng = (x / ORIGIN_SHIFT) * 180.0`;
`lat = (y / ORIGIN_SHIFT) * 180.0`, then
`lat = 180 / pi * (2 * atan(exp(lat * pi / 180.0)) - pi / 2.0)`. -/
noncomputable def mercatorToLatLng (x y : ℝ) : GeoPoint where
  lat := 180 / Real.pi *
    (2 * Real.arctan (Real.exp (y / ORIGIN_SHIFT * 180 * Real.pi / 180)) - Real.pi / 2)
  lng := x / ORIGIN_SHIFT * 180

/-- Embedding of `_calculate_meters_per_pixel`:
`(156543.03392 * cos(lat * pi / 180)) / (2 ** zoom)`. -/
noncomputable def calcMetersPerPixel (lat : ℝ) (zoom : ℤ) : ℝ :=
  156543.03392 * Real.cos (lat * Real.pi / 180) / (2 : ℝ) ^ zoom

/-- State of a constructed `GoogleMapsConverter` instance: the fields set by
`__init__`. -/
structure Converter where
  center_lat : ℝ
  center_lng : ℝ
  zoom_level : ℤ
  image_width : ℤ
  image_height : ℤ
  center_mercator : MercatorPoint
  meters_per_pixel : ℝ

/-- Embedding of `__init__`. The body stores its arguments, computes
`center_mercator = _lat_lng_to_mercator(center_lat, center_lng)` and sets
`meters_per_pixel` to the custom resolution when one is supplied and to
`_calculate_meters_per_pixel(center_lat, zoom_level)` otherwise. It performs
no validation; the only way it can fail is the `ValueError` raised by
`math.log` inside `_lat_lng_to_mercator`, modelled by the `mercatorDefined`
guard. -/
noncomputable def mkConverter (center_lat center_lng : ℝ) (zoom_level : ℤ)
    (image_width image_height : ℤ) (custom_resolution : Option ℝ) :
    Option Converter :=
  if mercatorDefined center_lat then
    some
      { center_lat := center_lat
        center_lng := center_lng
        zoom_level := zoom_level
        image_width := image_width
        image_height := image_height
        center_mercator := latLngToMercator center_lat center_lng
        meters_per_pixel :=
          match custom_resolution with
          | some r => r
          | none => calcMetersPerPixel center_lat zoom_level }
  else none

/-- Embedding of `pixel_to_lat_lng`: offsets from the image center are scaled
to meters (Y inverted), added to the center Mercator point, and converted back
with `_mercator_to_lat_lng`. Pure arithmetic, hence total. -/
noncomputable def pixel_to_lat_lng (c : Converter) (pixel_x pixel_y : ℝ) : GeoPoint :=
  let offset_x := pixel_x - (c.image_width : ℝ) / 2
  let offset_y := pixel_y - (c.image_height : ℝ) / 2
  let meter_x := offset_x * c.meters_per_pixel
  let meter_y := -offset_y * c.meters_per_pixel
  mercatorToLatLng (c.center_mercator.x + meter_x) (c.center_mercator.y + meter_y)

/-- Embedding of `lat_lng_to_pixel`: the input is converted to Mercator
(which can raise `ValueError` from `math.log`, the `mercatorDefined` guard),
the meter offset from the center is divided by `meters_per_pixel` (which
raises `ZeroDivisionError` when the resolution is 0, the second guard), and
the pixel offset is added to the image center (Y inverted). -/
noncomputable def lat_lng_to_pixel (c : Converter) (lat lng : ℝ) : Option PixelPoint :=
  if mercatorDefined lat then
    if c.meters_per_pixel = 0 then none
    else
      let m := latLngToMercator lat lng
      let meter_offset_x := m.x - c.center_mercator.x
      let meter_offset_y := m.y - c.center_mercator.y
      some
        { x := (c.image_width : ℝ) / 2 + meter_offset_x / c.meters_per_pixel
          y := (c.image_height : ℝ) / 2 + -meter_offset_y / c.meters_per_pixel }
  else none

/-- Fields of the dict returned by `get_resolution_info`. -/
structure ResolutionInfo where
  meters_per_pixel : ℝ
  zoom_level : ℤ
  center_lat : ℝ
  center_lng : ℝ
  image_width : ℤ
  image_height : ℤ

/-- Embedding of `get_resolution_info`. -/
def get_resolution_info (c : Converter) : ResolutionInfo where
  meters_per_pixel := c.meters_per_pixel
  zoom_level := c.zoom_level
  center_lat := c.center_lat
  center_lng := c.center_lng
  image_width := c.image_width
  image_height := c.image_height

/-- Fields of the dict returned by `calculate_distance_from_center`. -/
structure DistanceInfo where
  horizontal : ℝ
  vertical : ℝ
  total : ℝ

/-- Embedding of `calculate_distance_from_center`:
`horizontal = (pixel_x - image_width/2) * meters_per_pixel`,
`vertical = (pixel_y - image_height/2) * meters_per_pixel`,
`total = sqrt(horizontal**2 + vertical**2)`. Pure arithmetic, hence total. -/
noncomputable def calculate_distance_from_center (c : Converter)
    (pixel_x pixel_y : ℝ) : DistanceInfo :=
  let horizontal_distance := (pixel_x - (c.image_width : ℝ) / 2) * c.meters_per_pixel
  let vertical_distance := (pixel_y - (c.image_height : ℝ) / 2) * c.meters_per_pixel
  { horizontal := horizontal_distance
    vertical := vertical_distance
    total := Real.sqrt (horizontal_distance ^ 2 + vertical_distance ^ 2) }

/-! Helper lemmas about the embedded operations. -/

lemma ORIGIN_SHIFT_pos : 0 < ORIGIN_SHIFT := by
  unfold ORIGIN_SHIFT EARTH_RADIUS
  positivity

lemma ORIGIN_SHIFT_ne_zero : ORIGIN_SHIFT ≠ 0 := ne_of_gt ORIGIN_SHIFT_pos

lemma latLngToMercator_x (lat lng : ℝ) :
    (latLngToMercator lat lng).x = lng * ORIGIN_SHIFT / 180 := rfl

lemma latLngToMercator_y (lat lng : ℝ) :
    (latLngToMercator lat lng).y =
      Real.log (Real.tan ((90 + lat) * Real.pi / 360)) / (Real.pi / 180) *
        ORIGIN_SHIFT / 180 := rfl

lemma mercatorToLatLng_lat (x y : ℝ) :
    (mercatorToLatLng x y).lat = 180 / Real.pi *
      (2 * Real.arctan (Real.exp (y / ORIGIN_SHIFT * 180 * Real.pi / 180)) -
        Real.pi / 2) := rfl

lemma mercatorToLatLng_lng (x y : ℝ) :
    (mercatorToLatLng x y).lng = x / ORIGIN_SHIFT * 180 := rfl

/-- For a latitude strictly between the poles the Mercator angle lies in
(0, π/2), so its tangent is positive and the `math.log` call succeeds. -/
lemma mercatorDefined_of_lat {lat : ℝ} (h1 : -90 < lat) (h2 : lat < 90) :
    mercatorDefined lat := by
  have hπ := Real.pi_pos
  have h3 : (0:ℝ) < 90 + lat := by linarith
  apply Real.tan_pos_of_pos_of_lt_pi_div_two
  · have := mul_pos h3 hπ
    linarith
  · have h5 : (90 + lat) * Real.pi < 180 * Real.pi := by nlinarith
    linarith

/-- The inverse Mercator transform undoes the forward transform exactly, for
latitudes strictly between the poles (real arithmetic). -/
lemma mercator_geo_roundtrip (lat lng : ℝ) (h1 : -90 < lat) (h2 : lat < 90) :
    mercatorToLatLng (latLngToMercator lat lng).x (latLngToMercator lat lng).y
      = ⟨lat, lng⟩ := by
  have hπ : Real.pi ≠ 0 := Real.pi_ne_zero
  have hπ0 := Real.pi_pos
  have hS : ORIGIN_SHIFT ≠ 0 := ORIGIN_SHIFT_ne_zero
  have ht : 0 < Real.tan ((90 + lat) * Real.pi / 360) :=
    mercatorDefined_of_lat h1 h2
  have hlo : -(Real.pi / 2) < (90 + lat) * Real.pi / 360 := by
    have h3 : (0:ℝ) < 90 + lat := by linarith
    have := mul_pos h3 hπ0
    linarith
  have hhi : (90 + lat) * Real.pi / 360 < Real.pi / 2 := by
    nlinarith
  have hmk : mercatorToLatLng (latLngToMercator lat lng).x (latLngToMercator lat lng).y
      = GeoPoint.mk ((mercatorToLatLng (latLngToMercator lat lng).x
          (latLngToMercator lat lng).y).lat)
        ((mercatorToLatLng (latLngToMercator lat lng).x
          (latLngToMercator lat lng).y).lng) := rfl
  rw [hmk]
  simp only [mercatorToLatLng_lat, mercatorToLatLng_lng, latLngToMercator_x,
    latLngToMercator_y, GeoPoint.mk.injEq]
  constructor
  · have harg :
        Real.log (Real.tan ((90 + lat) * Real.pi / 360)) / (Real.pi / 180) *
            ORIGIN_SHIFT / 180 / ORIGIN_SHIFT * 180 * Real.pi / 180
          = Real.log (Real.tan ((90 + lat) * Real.pi / 360)) := by
      field_simp
      ring
    rw [harg, Real.exp_log ht, Real.arctan_tan hlo hhi]
    field_simp
    ring
  · field_simp
    ring

/-- The Mercator angle of the latitude produced by the inverse transform
collapses to an `arctan`, so its tangent is the (positive) exponential. -/
lemma tan_angle_mercatorToLatLng (x y : ℝ) :
    Real.tan ((90 + (mercatorToLatLng x y).lat) * Real.pi / 360)
      = Real.exp (y / ORIGIN_SHIFT * 180 * Real.pi / 180) := by
  have hπ : Real.pi ≠ 0 := Real.pi_ne_zero
  rw [mercatorToLatLng_lat]
  have hang : (90 + 180 / Real.pi *
      (2 * Real.arctan (Real.exp (y / ORIGIN_SHIFT * 180 * Real.pi / 180)) -
        Real.pi / 2)) * Real.pi / 360
      = Real.arctan (Real.exp (y / ORIGIN_SHIFT * 180 * Real.pi / 180)) := by
    field_simp
    ring
  rw [hang, Real.tan_arctan]

/-- Every output of the inverse transform has a latitude on which
`_lat_lng_to_mercator` is defined (strictly inside the poles). -/
lemma mercatorDefined_mercatorToLatLng (x y : ℝ) :
    mercatorDefined (mercatorToLatLng x y).lat := by
  unfold mercatorDefined
  rw [tan_angle_mercatorToLatLng]
  exact Real.exp_pos _

/-- The forward Mercator transform undoes the inverse transform exactly, for
every Mercator point (real arithmetic). -/
lemma mercator_pixel_roundtrip (x y : ℝ) :
    latLngToMercator (mercatorToLatLng x y).lat (mercatorToLatLng x y).lng
      = ⟨x, y⟩ := by
  have hπ : Real.pi ≠ 0 := Real.pi_ne_zero
  have hS : ORIGIN_SHIFT ≠ 0 := ORIGIN_SHIFT_ne_zero
  have hmk : latLngToMercator (mercatorToLatLng x y).lat (mercatorToLatLng x y).lng
      = MercatorPoint.mk
          ((latLngToMercator (mercatorToLatLng x y).lat (mercatorToLatLng x y).lng).x)
          ((latLngToMercator (mercatorToLatLng x y).lat (mercatorToLatLng x y).lng).y)
      := rfl
  rw [hmk]
  simp only [latLngToMercator_x, latLngToMercator_y, mercatorToLatLng_lng,
    MercatorPoint.mk.injEq]
  constructor
  · field_simp
  · rw [tan_angle_mercatorToLatLng, Real.log_exp]
    field_simp
    ring

/-- Inversion of a successful construction: the fields a constructed frame
carries. -/
lemma mkConverter_fields {clat clng : ℝ} {z w h : ℤ} {res : Option ℝ}
    {F : Converter} (hmk : mkConverter clat clng z w h res = some F) :
    F.center_lat = clat ∧ F.center_lng = clng ∧ F.zoom_level = z ∧
    F.image_width = w ∧ F.image_height = h ∧
    F.center_mercator = latLngToMercator clat clng ∧
    F.meters_per_pixel = (match res with
      | some r => r
      | none => calcMetersPerPixel clat z) := by
  unfold mkConverter at hmk
  split at hmk
  · simp only [Option.some.injEq] at hmk
    subst hmk
    refine ⟨rfl, rfl, rfl, rfl, rfl, rfl, ?_⟩
    cases res <;> rfl
  · exact absurd hmk (by simp)

/-- The frame of the repository's main example: center
(41.552013, -70.601921), zoom 19, 640 x 640, custom resolution 0.298. -/
noncomputable def theF : Converter where
  center_lat := 41.552013
  center_lng := -70.601921
  zoom_level := 19
  image_width := 640
  image_height := 640
  center_mercator := latLngToMercator 41.552013 (-70.601921)
  meters_per_pixel := 0.298

lemma mk_theF :
    mkConverter 41.552013 (-70.601921) 19 640 640 (some 0.298) = some theF := by
  unfold mkConverter
  rw [if_pos (mercatorDefined_of_lat (by norm_num) (by norm_num))]
  rfl

/-- At the lat/lng origin the forward Mercator transform yields the origin:
the angle is π/4, whose tangent is 1, and log 1 = 0. -/
lemma latLngToMercator_zero : latLngToMercator 0 0 = ⟨0, 0⟩ := by
  unfold latLngToMercator
  have hang : (90 + (0:ℝ)) * Real.pi / 360 = Real.pi / 4 := by ring
  rw [hang, Real.tan_pi_div_four]
  simp

/-- A frame with custom resolution 0, successfully constructed in the code
(the constructor performs no positivity check). -/
noncomputable def theF0 : Converter where
  center_lat := 0
  center_lng := 0
  zoom_level := 1
  image_width := 640
  image_height := 640
  center_mercator := ⟨0, 0⟩
  meters_per_pixel := 0

lemma mk_theF0 : mkConverter 0 0 1 640 640 (some 0) = some theF0 := by
  unfold mkConverter
  rw [if_pos (mercatorDefined_of_lat (by norm_num) (by norm_num))]
  rw [latLngToMercator_zero]
  rfl

/-- The Mercator angle of latitude 360 is 5π/4, whose tangent is 1: the log
guard passes even though the latitude is far outside the principal branch. -/
lemma tan_angle_360 : Real.tan ((90 + (360:ℝ)) * Real.pi / 360) = 1 := by
  have hang : (90 + (360:ℝ)) * Real.pi / 360 = Real.pi / 4 + Real.pi := by ring
  rw [hang, Real.tan_periodic (Real.pi / 4), Real.tan_pi_div_four]

lemma latLngToMercator_360 : latLngToMercator 360 0 = ⟨0, 0⟩ := by
  unfold latLngToMercator
  rw [tan_angle_360]
  simp

/-- A frame whose center latitude is 360 degrees: the constructor accepts it
because tan(5π/4) = 1 > 0, yet 360 is outside the principal branch of the
inverse transform. -/
noncomputable def theF360 : Converter where
  center_lat := 360
  center_lng := 0
  zoom_level := 1
  image_width := 640
  image_height := 640
  center_mercator := ⟨0, 0⟩
  meters_per_pixel := 1

lemma mk_theF360 : mkConverter 360 0 1 640 640 (some 1) = some theF360 := by
  unfold mkConverter
  have hdef : mercatorDefined (360:ℝ) := by
    unfold mercatorDefined
    rw [tan_angle_360]
    norm_num
  rw [if_pos hdef, latLngToMercator_360]
  rfl

/-- A frame requested with image width 0: the constructor accepts it. -/
noncomputable def theFw0 : Converter where
  center_lat := 41.552013
  center_lng := -70.601921
  zoom_level := 19
  image_width := 0
  image_height := 640
  center_mercator := latLngToMercator 41.552013 (-70.601921)
  meters_per_pixel := 0.298

lemma mk_theFw0 :
    mkConverter 41.552013 (-70.601921) 19 0 640 (some 0.298) = some theFw0 := by
  unfold mkConverter
  rw [if_pos (mercatorDefined_of_lat (by norm_num) (by norm_num))]
  rfl

/-- Unfolded form of `pixel_to_lat_lng`. -/
lemma pixel_to_lat_lng_def (c : Converter) (px py : ℝ) :
    pixel_to_lat_lng c px py =
      mercatorToLatLng
        (c.center_mercator.x + (px - (c.image_width : ℝ) / 2) * c.meters_per_pixel)
        (c.center_mercator.y + -(py - (c.image_height : ℝ) / 2) * c.meters_per_pixel) :=
  rfl

/-- Unfolded form of `lat_lng_to_pixel` when both guards pass. -/
lemma lat_lng_to_pixel_def (c : Converter) (lat lng : ℝ)
    (hdef : mercatorDefined lat) (hr : c.meters_per_pixel ≠ 0) :
    lat_lng_to_pixel c lat lng = some
      ⟨(c.image_width : ℝ) / 2 +
          ((latLngToMercator lat lng).x - c.center_mercator.x) / c.meters_per_pixel,
        (c.image_height : ℝ) / 2 +
          -((latLngToMercator lat lng).y - c.center_mercator.y) / c.meters_per_pixel⟩ := by
  unfold lat_lng_to_pixel
  rw [if_pos hdef, if_neg hr]

/-- C6: Resolution doubling law: for every latitude L and every integer zoom
z, the ground resolution computed by `_calculate_meters_per_pixel` satisfies
groundResolution(L, z+1) = groundResolution(L, z) / 2 exactly. -/
theorem C6_resolution_doubling (L : ℝ) (z : ℤ) :
    calcMetersPerPixel L (z + 1) = calcMetersPerPixel L z / 2 := by
  unfold calcMetersPerPixel
  rw [zpow_add_one₀ (by norm_num : (2:ℝ) ≠ 0)]
  ring

/-- C7: Override precedence: for every latitude, longitude and zoom, a frame
constructed with a custom resolution reports exactly that override value in
`get_resolution_info`; the latitude/zoom-derived calculation is not used. -/
theorem C7_override_precedence (clat clng : ℝ) (z w h : ℤ) (r : ℝ)
    (F : Converter) (hmk : mkConverter clat clng z w h (some r) = some F) :
    (get_resolution_info F).meters_per_pixel = r := by
  have hf : F.meters_per_pixel = r := (mkConverter_fields hmk).2.2.2.2.2.2
  exact hf

/-- Witness for C7 at the repository's main example frame. -/
theorem C7_witness :
    mkConverter 41.552013 (-70.601921) 19 640 640 (some 0.298) = some theF ∧
    (get_resolution_info theF).meters_per_pixel = 0.298 :=
  ⟨mk_theF, C7_override_precedence _ _ _ _ _ _ _ mk_theF⟩

/-- C9: Coordinate separability: for every frame, the latitude returned by
`pixel_to_lat_lng` depends only on pixel_y, and the longitude only on
pixel_x. -/
theorem C9_coordinate_separability (F : Converter) (x x' y y' : ℝ) :
    (pixel_to_lat_lng F x y).lat = (pixel_to_lat_lng F x' y).lat ∧
    (pixel_to_lat_lng F x y).lng = (pixel_to_lat_lng F x y').lng :=
  ⟨rfl, rfl⟩

/-- Bundle of the properties C10 asserts about
`calculate_distance_from_center`: the sign properties are conditional on a
positive resolution (as the claim scopes them), while the Euclidean-norm
properties of `total` hold for every frame, zero or negative resolution
included. -/
def distanceStructure (F : Converter) (px py : ℝ) : Prop :=
  (0 < F.meters_per_pixel → px < (F.image_width : ℝ) / 2 →
    (calculate_distance_from_center F px py).horizontal < 0) ∧
  (0 < F.meters_per_pixel → py < (F.image_height : ℝ) / 2 →
    (calculate_distance_from_center F px py).vertical < 0) ∧
  (calculate_distance_from_center F px py).total =
    Real.sqrt ((calculate_distance_from_center F px py).horizontal ^ 2 +
      (calculate_distance_from_center F px py).vertical ^ 2) ∧
  0 ≤ (calculate_distance_from_center F px py).total ∧
  |(calculate_distance_from_center F px py).horizontal| ≤
    (calculate_distance_from_center F px py).total ∧
  |(calculate_distance_from_center F px py).vertical| ≤
    (calculate_distance_from_center F px py).total

/-- C10: Distance structure: for every frame and every pixel input,
horizontal and vertical are signed offsets (negative left of / above center
when the resolution is positive), and unconditionally total equals
sqrt(horizontal² + vertical²), hence is nonnegative and at least each
component's absolute value. -/
theorem C10_distance_structure (F : Converter) (px py : ℝ) :
    distanceStructure F px py := by
  have hH : (calculate_distance_from_center F px py).horizontal
      = (px - (F.image_width : ℝ) / 2) * F.meters_per_pixel := rfl
  have hV : (calculate_distance_from_center F px py).vertical
      = (py - (F.image_height : ℝ) / 2) * F.meters_per_pixel := rfl
  have hT : (calculate_distance_from_center F px py).total
      = Real.sqrt ((calculate_distance_from_center F px py).horizontal ^ 2 +
          (calculate_distance_from_center F px py).vertical ^ 2) := rfl
  refine ⟨?_, ?_, hT, ?_, ?_, ?_⟩
  · intro hr hx
    rw [hH]
    exact mul_neg_of_neg_of_pos (by linarith) hr
  · intro hr hy
    rw [hV]
    exact mul_neg_of_neg_of_pos (by linarith) hr
  · rw [hT]
    exact Real.sqrt_nonneg _
  · rw [hT]
    calc |(calculate_distance_from_center F px py).horizontal|
        = Real.sqrt ((calculate_distance_from_center F px py).horizontal ^ 2) :=
          (Real.sqrt_sq_eq_abs _).symm
      _ ≤ _ := Real.sqrt_le_sqrt (le_add_of_nonneg_right (sq_nonneg _))
  · rw [hT]
    calc |(calculate_distance_from_center F px py).vertical|
        = Real.sqrt ((calculate_distance_from_center F px py).vertical ^ 2) :=
          (Real.sqrt_sq_eq_abs _).symm
      _ ≤ _ := Real.sqrt_le_sqrt (le_add_of_nonneg_left (sq_nonneg _))

/-- Witness for C10 at the example frame and a pixel left of and below the
center. -/
theorem C10_witness : distanceStructure theF 100 500 :=
  C10_distance_structure theF 100 500

/-- C1 (amended): Geo-domain round trip: for every successfully constructed
frame whose resolution is nonzero and every GeoPoint with latitude strictly
inside (-90, 90), `pixel_to_lat_lng` applied to the result of
`lat_lng_to_pixel` returns the input exactly (real arithmetic). -/
theorem C1_geo_roundtrip (clat clng : ℝ) (z w h : ℤ) (res : Option ℝ)
    (F : Converter) (hmk : mkConverter clat clng z w h res = some F)
    (hr : F.meters_per_pixel ≠ 0) (g : GeoPoint)
    (h1 : -90 < g.lat) (h2 : g.lat < 90) :
    (lat_lng_to_pixel F g.lat g.lng).map
      (fun p => pixel_to_lat_lng F p.x p.y) = some g := by
  rw [lat_lng_to_pixel_def F g.lat g.lng (mercatorDefined_of_lat h1 h2) hr]
  simp only [Option.map_some']
  rw [pixel_to_lat_lng_def]
  have ex : F.center_mercator.x +
      ((F.image_width : ℝ) / 2 +
          ((latLngToMercator g.lat g.lng).x - F.center_mercator.x) /
            F.meters_per_pixel - (F.image_width : ℝ) / 2) * F.meters_per_pixel
      = (latLngToMercator g.lat g.lng).x := by
    field_simp
    ring
  have ey : F.center_mercator.y +
      -((F.image_height : ℝ) / 2 +
          -((latLngToMercator g.lat g.lng).y - F.center_mercator.y) /
            F.meters_per_pixel - (F.image_height : ℝ) / 2) * F.meters_per_pixel
      = (latLngToMercator g.lat g.lng).y := by
    field_simp
    ring
  rw [ex, ey, mercator_geo_roundtrip g.lat g.lng h1 h2]

/-- Witness for C1 at the example frame and the GeoPoint (10, 20). -/
theorem C1_witness :
    mkConverter 41.552013 (-70.601921) 19 640 640 (some 0.298) = some theF ∧
    theF.meters_per_pixel ≠ 0 ∧
    -90 < (GeoPoint.mk 10 20).lat ∧ (GeoPoint.mk 10 20).lat < 90 ∧
    (lat_lng_to_pixel theF (GeoPoint.mk 10 20).lat (GeoPoint.mk 10 20).lng).map
      (fun p => pixel_to_lat_lng theF p.x p.y) = some (GeoPoint.mk 10 20) :=
  ⟨mk_theF, by norm_num [theF], by norm_num, by norm_num,
    C1_geo_roundtrip _ _ _ _ _ _ _ mk_theF (by norm_num [theF]) ⟨10, 20⟩
      (by norm_num) (by norm_num)⟩

/-- Counterexample to C1 as stated: the frame with custom resolution 0 is
successfully constructed (the constructor performs no positivity check), yet
at latitude 10 — strictly inside the poles — the round trip does not return
the input: `lat_lng_to_pixel` divides by zero (ZeroDivisionError, modelled as
none), so the composite produces nothing. -/
theorem C1_counterexample :
    mkConverter 0 0 1 640 640 (some 0) = some theF0 ∧
    (-90:ℝ) < 10 ∧ (10:ℝ) < 90 ∧
    (lat_lng_to_pixel theF0 10 20).map
      (fun p => pixel_to_lat_lng theF0 p.x p.y) ≠ some ⟨10, 20⟩ := by
  refine ⟨mk_theF0, by norm_num, by norm_num, ?_⟩
  have h0 : lat_lng_to_pixel theF0 10 20 = none := by
    unfold lat_lng_to_pixel
    have hz : theF0.meters_per_pixel = 0 := rfl
    rw [if_pos (mercatorDefined_of_lat (by norm_num) (by norm_num)), if_pos hz]
  rw [h0]
  simp

/-- C2 (amended): Pixel-domain round trip: for every successfully constructed
frame whose resolution is nonzero and every pixel point,
`lat_lng_to_pixel` applied to the result of `pixel_to_lat_lng` returns the
pixel exactly (real arithmetic; the produced latitude is automatically
strictly inside the poles). -/
theorem C2_pixel_roundtrip (clat clng : ℝ) (z w h : ℤ) (res : Option ℝ)
    (F : Converter) (hmk : mkConverter clat clng z w h res = some F)
    (hr : F.meters_per_pixel ≠ 0) (p : PixelPoint) :
    lat_lng_to_pixel F (pixel_to_lat_lng F p.x p.y).lat
      (pixel_to_lat_lng F p.x p.y).lng = some p := by
  obtain ⟨px, py⟩ := p
  rw [pixel_to_lat_lng_def]
  set X := F.center_mercator.x +
    ((PixelPoint.mk px py).x - (F.image_width : ℝ) / 2) * F.meters_per_pixel with hX
  set Y := F.center_mercator.y +
    -((PixelPoint.mk px py).y - (F.image_height : ℝ) / 2) * F.meters_per_pixel with hY
  rw [lat_lng_to_pixel_def F (mercatorToLatLng X Y).lat (mercatorToLatLng X Y).lng
    (mercatorDefined_mercatorToLatLng X Y) hr]
  rw [mercator_pixel_roundtrip X Y]
  simp only [Option.some.injEq, PixelPoint.mk.injEq]
  constructor
  · rw [hX]
    field_simp
    ring
  · rw [hY]
    field_simp
    ring

/-- Witness for C2 at the example frame and the pixel (514, 452). -/
theorem C2_witness :
    mkConverter 41.552013 (-70.601921) 19 640 640 (some 0.298) = some theF ∧
    theF.meters_per_pixel ≠ 0 ∧
    lat_lng_to_pixel theF
        (pixel_to_lat_lng theF (PixelPoint.mk 514 452).x (PixelPoint.mk 514 452).y).lat
        (pixel_to_lat_lng theF (PixelPoint.mk 514 452).x (PixelPoint.mk 514 452).y).lng
      = some (PixelPoint.mk 514 452) :=
  ⟨mk_theF, by norm_num [theF],
    C2_pixel_roundtrip _ _ _ _ _ _ _ mk_theF (by norm_num [theF]) ⟨514, 452⟩⟩

/-- The inverse transform at the Mercator origin yields the lat/lng origin. -/
lemma mercatorToLatLng_zero : mercatorToLatLng 0 0 = ⟨0, 0⟩ := by
  unfold mercatorToLatLng
  rw [show (0:ℝ) / ORIGIN_SHIFT * 180 * Real.pi / 180 = 0 by ring,
    Real.exp_zero, Real.arctan_one]
  simp only [GeoPoint.mk.injEq]
  constructor
  · ring
  · ring

/-- Counterexample to C2 as stated: with the successfully constructed
zero-resolution frame, the pixel (100, 100) maps to latitude 0 — strictly
inside the poles — but the forward conversion then divides by zero
(ZeroDivisionError, modelled as none) instead of returning the pixel. -/
theorem C2_counterexample :
    mkConverter 0 0 1 640 640 (some 0) = some theF0 ∧
    pixel_to_lat_lng theF0 100 100 = ⟨0, 0⟩ ∧
    lat_lng_to_pixel theF0 (pixel_to_lat_lng theF0 100 100).lat
      (pixel_to_lat_lng theF0 100 100).lng ≠ some ⟨100, 100⟩ := by
  have hg : pixel_to_lat_lng theF0 100 100 = ⟨0, 0⟩ := by
    rw [pixel_to_lat_lng_def]
    have hx : theF0.center_mercator.x +
        ((100:ℝ) - (theF0.image_width : ℝ) / 2) * theF0.meters_per_pixel = 0 := by
      norm_num [theF0]
    have hy : theF0.center_mercator.y +
        -((100:ℝ) - (theF0.image_height : ℝ) / 2) * theF0.meters_per_pixel = 0 := by
      norm_num [theF0]
    rw [hx, hy, mercatorToLatLng_zero]
  refine ⟨mk_theF0, hg, ?_⟩
  rw [hg]
  have h0 : lat_lng_to_pixel theF0 (GeoPoint.mk 0 0).lat (GeoPoint.mk 0 0).lng = none := by
    unfold lat_lng_to_pixel
    have hz : theF0.meters_per_pixel = 0 := rfl
    rw [if_pos (mercatorDefined_of_lat (by norm_num) (by norm_num)), if_pos hz]
  rw [h0]
  simp

/-- For latitude -90 the Mercator angle is 0, whose tangent is 0: the
`math.log` call raises ValueError. -/
lemma not_mercatorDefined_neg90 : ¬ mercatorDefined (-90 : ℝ) := by
  unfold mercatorDefined
  rw [show (90 + (-90:ℝ)) * Real.pi / 360 = 0 by ring, Real.tan_zero]
  exact lt_irrefl 0

/-- C3 (amended): the constructor validates nothing: image width 0 is
accepted and yields a usable frame, the derived resolution at latitude 90 is
exactly 0, and the only failure mode of construction is the `math.log` domain
error — e.g. at latitude -90, where tan((90+lat)·π/360) = 0 — which raises an
untyped ValueError rather than a documented typed error. -/
theorem C3_no_validation (lng : ℝ) (z w h : ℤ) :
    (mkConverter 41.552013 lng z 0 h (some 0.298)).isSome = true ∧
    calcMetersPerPixel 90 z = 0 ∧
    mkConverter (-90) lng z w h none = none := by
  refine ⟨?_, ?_, ?_⟩
  · unfold mkConverter
    rw [if_pos (mercatorDefined_of_lat (by norm_num) (by norm_num))]
    rfl
  · unfold calcMetersPerPixel
    rw [show (90:ℝ) * Real.pi / 180 = Real.pi / 2 by ring, Real.cos_pi_div_two]
    ring
  · unfold mkConverter
    rw [if_neg not_mercatorDefined_neg90]

/-- Counterexample to C3 as stated: requesting a frame with image width 0
succeeds and returns a usable frame whose resolution info reports 0.298; no
validation of width, height or resolution occurs. -/
theorem C3_counterexample :
    mkConverter 41.552013 (-70.601921) 19 0 640 (some 0.298) = some theFw0 ∧
    (get_resolution_info theFw0).meters_per_pixel = 0.298 :=
  ⟨mk_theFw0, rfl⟩

/-- C4 (amended): once a frame exists, `pixel_to_lat_lng` and
`calculate_distance_from_center` are total (they are plain functions of the
embedding), and `lat_lng_to_pixel` succeeds for every latitude strictly
inside the poles provided the resolution is nonzero. -/
theorem C4_totality (F : Converter) (lat lng : ℝ)
    (h1 : -90 < lat) (h2 : lat < 90) (hr : F.meters_per_pixel ≠ 0) :
    (lat_lng_to_pixel F lat lng).isSome = true := by
  rw [lat_lng_to_pixel_def F lat lng (mercatorDefined_of_lat h1 h2) hr]
  rfl

/-- Witness for C4 at the example frame and latitude 10. -/
theorem C4_witness :
    (-90:ℝ) < 10 ∧ (10:ℝ) < 90 ∧ theF.meters_per_pixel ≠ 0 ∧
    (lat_lng_to_pixel theF 10 20).isSome = true :=
  ⟨by norm_num, by norm_num, by norm_num [theF],
    C4_totality theF 10 20 (by norm_num) (by norm_num) (by norm_num [theF])⟩

/-- Counterexample to C4 as stated: on the successfully constructed example
frame, `lat_lng_to_pixel` at the finite geographic input latitude -90 hits
`math.log(0)` — a ValueError — so the operation is not total over all finite
inputs. -/
theorem C4_counterexample :
    mkConverter 41.552013 (-70.601921) 19 640 640 (some 0.298) = some theF ∧
    lat_lng_to_pixel theF (-90) 0 = none := by
  refine ⟨mk_theF, ?_⟩
  unfold lat_lng_to_pixel
  rw [if_neg not_mercatorDefined_neg90]

/-- C5 (amended): for every successfully constructed frame whose center
latitude is strictly inside (-90, 90), `pixel_to_lat_lng` at the center pixel
(width/2, height/2) returns the center GeoPoint exactly. -/
theorem C5_center_identity (clat clng : ℝ) (z w h : ℤ) (res : Option ℝ)
    (F : Converter) (hmk : mkConverter clat clng z w h res = some F)
    (h1 : -90 < clat) (h2 : clat < 90) :
    pixel_to_lat_lng F ((F.image_width : ℝ) / 2) ((F.image_height : ℝ) / 2)
      = ⟨clat, clng⟩ := by
  obtain ⟨_, _, _, _, _, hcm, _⟩ := mkConverter_fields hmk
  rw [pixel_to_lat_lng_def]
  have hx : F.center_mercator.x +
      ((F.image_width : ℝ) / 2 - (F.image_width : ℝ) / 2) * F.meters_per_pixel
      = (latLngToMercator clat clng).x := by
    rw [hcm]
    ring
  have hy : F.center_mercator.y +
      -((F.image_height : ℝ) / 2 - (F.image_height : ℝ) / 2) * F.meters_per_pixel
      = (latLngToMercator clat clng).y := by
    rw [hcm]
    ring
  rw [hx, hy, mercator_geo_roundtrip clat clng h1 h2]

/-- Witness for C5 at the example frame. -/
theorem C5_witness :
    mkConverter 41.552013 (-70.601921) 19 640 640 (some 0.298) = some theF ∧
    (-90:ℝ) < 41.552013 ∧ (41.552013:ℝ) < 90 ∧
    pixel_to_lat_lng theF ((theF.image_width : ℝ) / 2) ((theF.image_height : ℝ) / 2)
      = ⟨41.552013, -70.601921⟩ :=
  ⟨mk_theF, by norm_num, by norm_num,
    C5_center_identity _ _ _ _ _ _ _ mk_theF (by norm_num) (by norm_num)⟩

/-- Counterexample to C5 as stated: the frame with center latitude 360 is
successfully constructed (tan(5π/4) = 1 > 0), but the center pixel maps back
to latitude 0, not 360: the identity fails outside the principal branch. -/
theorem C5_counterexample :
    mkConverter 360 0 1 640 640 (some 1) = some theF360 ∧
    pixel_to_lat_lng theF360 ((theF360.image_width : ℝ) / 2)
        ((theF360.image_height : ℝ) / 2)
      ≠ ⟨theF360.center_lat, theF360.center_lng⟩ := by
  refine ⟨mk_theF360, ?_⟩
  have hg : pixel_to_lat_lng theF360 ((theF360.image_width : ℝ) / 2)
      ((theF360.image_height : ℝ) / 2) = ⟨0, 0⟩ := by
    rw [pixel_to_lat_lng_def]
    have hx : theF360.center_mercator.x +
        ((theF360.image_width : ℝ) / 2 - (theF360.image_width : ℝ) / 2) *
          theF360.meters_per_pixel = 0 := by
      norm_num [theF360]
    have hy : theF360.center_mercator.y +
        -((theF360.image_height : ℝ) / 2 - (theF360.image_height : ℝ) / 2) *
          theF360.meters_per_pixel = 0 := by
      norm_num [theF360]
    rw [hx, hy, mercatorToLatLng_zero]
  rw [hg]
  intro hco
  have hlat : (0:ℝ) = theF360.center_lat := congrArg GeoPoint.lat hco
  norm_num [theF360] at hlat

/-- C8: Concrete scenario: on the frame constructed with the example
parameters (custom resolution 0.298), the distance query at pixel (514, 452)
reports horizontal 57.812 m, vertical 39.336 m, and total
sqrt(57.812² + 39.336²), which lies within 0.03 of 69.95 m. -/
theorem C8_concrete_distance (F : Converter)
    (hmk : mkConverter 41.552013 (-70.601921) 19 640 640 (some 0.298) = some F) :
    (calculate_distance_from_center F 514 452).horizontal = 57.812 ∧
    (calculate_distance_from_center F 514 452).vertical = 39.336 ∧
    (calculate_distance_from_center F 514 452).total
      = Real.sqrt ((57.812:ℝ) ^ 2 + 39.336 ^ 2) ∧
    |(calculate_distance_from_center F 514 452).total - 69.95| < 0.03 := by
  obtain ⟨_, _, _, hw, hh, _, hr⟩ := mkConverter_fields hmk
  have hr2 : F.meters_per_pixel = 0.298 := hr
  have hH : (calculate_distance_from_center F 514 452).horizontal = 57.812 := by
    show ((514:ℝ) - (F.image_width : ℝ) / 2) * F.meters_per_pixel = 57.812
    rw [hw, hr2]
    norm_num
  have hV : (calculate_distance_from_center F 514 452).vertical = 39.336 := by
    show ((452:ℝ) - (F.image_height : ℝ) / 2) * F.meters_per_pixel = 39.336
    rw [hh, hr2]
    norm_num
  have hT : (calculate_distance_from_center F 514 452).total
      = Real.sqrt ((calculate_distance_from_center F 514 452).horizontal ^ 2 +
          (calculate_distance_from_center F 514 452).vertical ^ 2) := rfl
  have hTv : (calculate_distance_from_center F 514 452).total
      = Real.sqrt ((57.812:ℝ) ^ 2 + 39.336 ^ 2) := by
    rw [hT, hH, hV]
  refine ⟨hH, hV, hTv, ?_⟩
  rw [hTv]
  have hub : Real.sqrt ((57.812:ℝ) ^ 2 + 39.336 ^ 2) < 69.98 := by
    rw [Real.sqrt_lt' (by norm_num)]
    norm_num
  have hlb : (69.92:ℝ) < Real.sqrt ((57.812:ℝ) ^ 2 + 39.336 ^ 2) := by
    rw [Real.lt_sqrt (by norm_num)]
    norm_num
  rw [abs_lt]
  constructor <;> linarith

/-- Witness for C8 at the example frame. -/
theorem C8_witness :
    mkConverter 41.552013 (-70.601921) 19 640 640 (some 0.298) = some theF ∧
    ((calculate_distance_from_center theF 514 452).horizontal = 57.812 ∧
      (calculate_distance_from_center theF 514 452).vertical = 39.336 ∧
      (calculate_distance_from_center theF 514 452).total
        = Real.sqrt ((57.812:ℝ) ^ 2 + 39.336 ^ 2) ∧
      |(calculate_distance_from_center theF 514 452).total - 69.95| < 0.03) :=
  ⟨mk_theF, C8_concrete_distance theF mk_theF⟩

end GoogleMapsConverter
